import Mathlib

/-!
Shallow embedding of the `bi-clean-architecture-demo` repository
(package `example_project`) and proofs about its specification.

The embedding follows the Python source:
  * `src/example_project/adapter/storage/__init__.py`
      (`ConvertToBytes.execute`, `SaveToFile.execute`,
       `UnityCatalogVolumeStorageService`, `StorageService`)
  * `src/example_project/composition/context.py`
      (`ClassImportPath.from_string`, `ClassImportPath.import_class`,
       `Context.default`, `Context.notebook_default`)
  * `src/example_project/composition/frames.py`
      (`import_frame_service_classes`)
  * `src/example_project/application/use_case.py`
      (`DownloadAndStore.execute`)

Python values are modelled by the inductive `PyVal`; `bytes` objects by
`List Nat` (byte values); `pathlib.PurePosixPath` objects by `PurePath`
(a root marker plus the list of path segments, exactly pathlib's parse).
Machine floats are abstracted by the decimal string Python's `str`
produces for them (the claims under study never compute with the float
value itself, only with its textual rendering or with the fact that the
branch is taken).
-/

namespace ExampleProject

/-! ## Bytes and UTF-8 encoding -/

/-- UTF-8 encoding of a single character, as byte values. -/
def utf8Char (c : Char) : List Nat :=
  let n := c.toNat
  if n < 0x80 then [n]
  else if n < 0x800 then
    [0xC0 + (n >>> 6), 0x80 + (n &&& 0x3F)]
  else if n < 0x10000 then
    [0xE0 + (n >>> 12), 0x80 + ((n >>> 6) &&& 0x3F), 0x80 + (n &&& 0x3F)]
  else
    [0xF0 + (n >>> 18), 0x80 + ((n >>> 12) &&& 0x3F),
     0x80 + ((n >>> 6) &&& 0x3F), 0x80 + (n &&& 0x3F)]

/-- UTF-8 encoding of a string: the Python expression `s.encode("utf-8")`. -/
def utf8 (s : String) : List Nat :=
  (s.data.map utf8Char).flatten

/-! ## Python values

`PyVal` covers every runtime type `ConvertToBytes.execute` discriminates
on, plus `VOther` for an object of any other Python type (carrying the
name of that type, as used by the error message of the `else` branch).

  * `VFloat` carries the decimal string `str(x)` produces for the float.
  * `VDatetime`/`VDate` carry year/month/day (and time) fields;
    `isoformat` is computed from them below.
  * `VTimedelta` carries days/seconds/microseconds (the normalised
    fields of a Python `timedelta`).
  * `VBool` is a separate constructor, but note that in Python `bool`
    is a subclass of `int`, so `isinstance(True, int)` holds; the
    embedding of `execute` reflects which branch actually fires.
-/

inductive PyVal : Type where
  | VStr (s : String)
  | VBytes (b : List Nat)
  | VBytearray (b : List Nat)
  | VDict (entries : List (String × PyVal))
  | VList (items : List PyVal)
  | VFloat (str_repr : String)
  | VInt (n : Int)
  | VBool (b : Bool)
  | VDatetime (y mo d h mi s us : Nat)
  | VDate (y mo d : Nat)
  | VTimedelta (days : Int) (secs us : Nat)
  | VOther (typeName : String)

open PyVal

/-- Exceptions raised by the embedded code paths. `unsupported` is the
`Exception(f"Unsupported type: ...")` of `ConvertToBytes.execute` (the
spec's `UnsupportedTypeError`), carrying the offending type's name;
`attrErr` models Python `AttributeError`; `typeErr` models Python
`TypeError`; `configErr` is the `Exception("file_path should be a file,
not a directory")` of `UnityCatalogVolumeStorageService.__init__` (the
spec's `ConfigurationError`). -/
inductive PyExc : Type where
  | unsupported (typeName : String)
  | attrErr (msg : String)
  | typeErr (msg : String)
  | configErr (msg : String)
  deriving DecidableEq, Repr

/-! ## JSON serialisation (`json.dumps` with default options)

Default options: `ensure_ascii=True`, separators `", "` and `": "`.
Non-serialisable objects make `dumps` fail (Python raises `TypeError`);
the failure is modelled by `none`, and `ConvertToBytes.execute` below
re-raises it as `PyExc.typeErr` (uncaught, so it propagates). Dict keys
are modelled as strings (the payloads of this repository only use string
keys). -/

/-- Lower-case hexadecimal digit. -/
def hexDigit (n : Nat) : Char :=
  if n < 10 then Char.ofNat (48 + n) else Char.ofNat (87 + n)

/-- A `\uXXXX` escape for a code unit below 0x10000. -/
def uEscape (n : Nat) : List Char :=
  ['\\', 'u', hexDigit ((n >>> 12) &&& 0xF), hexDigit ((n >>> 8) &&& 0xF),
   hexDigit ((n >>> 4) &&& 0xF), hexDigit (n &&& 0xF)]

/-- Escape one character the way `json.dumps` (`ensure_ascii=True`) does. -/
def escChar (c : Char) : List Char :=
  if c = '"' then ['\\', '"']
  else if c = '\\' then ['\\', '\\']
  else if c = '\n' then ['\\', 'n']
  else if c = '\r' then ['\\', 'r']
  else if c = '\t' then ['\\', 't']
  else if c.toNat = 8 then ['\\', 'b']
  else if c.toNat = 12 then ['\\', 'f']
  else if c.toNat < 0x20 || 0x7E < c.toNat then
    if c.toNat < 0x10000 then uEscape c.toNat
    else
      let m := c.toNat - 0x10000
      uEscape (0xD800 + (m >>> 10)) ++ uEscape (0xDC00 + (m &&& 0x3FF))
  else [c]

/-- JSON string literal for `s`, double quotes included. -/
def jsonQuote (s : String) : String :=
  ⟨'"' :: (s.data.map escChar).flatten ++ ['"']⟩

/-- Python's `str` on an `int` (also the JSON rendering of an int). -/
def intRepr (n : Int) : String := toString n

mutual

/-- The serialisation `json.dumps(v)` performs, or `none` when Python
would raise `TypeError: Object of type ... is not JSON serializable`. -/
def dumps : PyVal → Option String
  | VStr s => some (jsonQuote s)
  | VDict es => do
      let parts ← dumpsEntries es
      pure ("\x7b" ++ String.intercalate ", " parts ++ "\x7d")
  | VList xs => do
      let parts ← dumpsItems xs
      pure ("[" ++ String.intercalate ", " parts ++ "]")
  | VFloat r => some r
  | VInt n => some (intRepr n)
  | VBool b => some (if b then "true" else "false")
  | VBytes _ => none
  | VBytearray _ => none
  | VDatetime _ _ _ _ _ _ _ => none
  | VDate _ _ _ => none
  | VTimedelta _ _ _ => none
  | VOther _ => none

/-- Serialise the key/value pairs of a dict, in insertion order. -/
def dumpsEntries : List (String × PyVal) → Option (List String)
  | [] => some []
  | (k, v) :: rest => do
      let sv ← dumps v
      let srest ← dumpsEntries rest
      pure ((jsonQuote k ++ ": " ++ sv) :: srest)

/-- Serialise the items of a list. -/
def dumpsItems : List PyVal → Option (List String)
  | [] => some []
  | v :: rest => do
      let sv ← dumps v
      let srest ← dumpsItems rest
      pure (sv :: srest)

end

/-! ## Python `str` / `isoformat` renderings used by `execute` -/

/-- Zero-padded decimal rendering with (at least) `w` digits. -/
def padNum (w n : Nat) : String :=
  let s := toString n
  ⟨List.replicate (w - s.length) '0' ++ s.data⟩

/-- The string `date(y, mo, d).isoformat()`. -/
def dateIso (y mo d : Nat) : String :=
  padNum 4 y ++ "-" ++ padNum 2 mo ++ "-" ++ padNum 2 d

/-- The string `datetime(y, mo, d, h, mi, s, us).isoformat()` (naive
datetime; microseconds printed only when non-zero, as Python does). -/
def datetimeIso (y mo d h mi s us : Nat) : String :=
  dateIso y mo d ++ "T" ++ padNum 2 h ++ ":" ++ padNum 2 mi ++ ":" ++ padNum 2 s
    ++ (if us = 0 then "" else "." ++ padNum 6 us)

/-! ## `ConvertToBytes.execute`

From `adapter/storage/__init__.py`.  The chain of `isinstance` checks is
`str`, `bytes`, `bytearray`, `dict`, `list`, `float`, `int`, `bool`,
`datetime`, `date`, `timedelta`, else raise.  Two Python subtleties the
embedding must reflect:

  * `bool` is a subclass of `int`, so a `True`/`False` input is caught
    by the *int* branch (`elif isinstance(d, int)`), whose body is
    `str(d).encode("utf-8")`; `str(True)` is `"True"`, so the result is
    the textual form anyway, and the later `bool` branch is dead code.
  * the `timedelta` branch is `d.total_seconds().encode("utf-8")`;
    `total_seconds()` returns a `float`, and `float` has no `encode`
    attribute, so this branch always raises `AttributeError` before
    returning.
-/

def «ConvertToBytes.execute» : PyVal → Except PyExc (List Nat)
  | VStr s => .ok (utf8 s)
  | VBytes b => .ok b
  | VBytearray b => .ok b
  | VDict es =>
      match dumps (VDict es) with
      | some s => .ok (utf8 s)
      | none => .error (.typeErr "Object of type ... is not JSON serializable")
  | VList xs =>
      match dumps (VList xs) with
      | some s => .ok (utf8 s)
      | none => .error (.typeErr "Object of type ... is not JSON serializable")
  | VFloat r => .ok (utf8 r)
  | VInt n => .ok (utf8 (intRepr n))
  | VBool b => .ok (utf8 (if b then "True" else "False"))
  | VDatetime y mo d h mi s us => .ok (utf8 (datetimeIso y mo d h mi s us))
  | VDate y mo d => .ok (utf8 (dateIso y mo d))
  | VTimedelta _ _ _ =>
      .error (.attrErr "float object has no attribute encode")
  | VOther t => .error (.unsupported t)

/-- The closed set of supported kinds the spec documents:
text, bytes, byte-mutable-sequence, mapping, sequence, bool, int,
float, date, date-time, duration.  `VOther` is exactly the complement. -/
def inClosedKindSet : PyVal → Bool
  | VOther _ => false
  | _ => true

/-- Does an execution outcome consist of the `Unsupported type` error? -/
def isUnsupportedErr : Except PyExc (List Nat) → Bool
  | .error (.unsupported _) => true
  | _ => false

/-! ## `pathlib.PurePosixPath`

A parsed POSIX path is a root marker plus the list of its segments.
`pathlib` parsing drops empty segments and `"."` segments, keeps `".."`
segments, and treats a leading run of slashes as the root: one slash or
three-or-more give root `"/"`, exactly two give the POSIX-special root
`"//"`.  `str()`/`as_posix()` re-join the segments with `"/"`; the
representation of a rootless path with no segments is `"."`.
Multi-argument `Path(a, b, ...)` joins left to right, and an argument
that carries a root discards everything accumulated before it. -/

/-- Split a character list at every `'/'` (raw split, empty pieces kept). -/
def splitSlash : List Char → List (List Char)
  | [] => [[]]
  | c :: cs =>
      if c = '/' then [] :: splitSlash cs
      else
        match splitSlash cs with
        | [] => [[c]]
        | g :: gs => (c :: g) :: gs

/-- The segments `pathlib` keeps: raw pieces that are neither empty nor `"."`. -/
def segs (cs : List Char) : List (List Char) :=
  (splitSlash cs).filter (fun g => decide (g ≠ [] ∧ g ≠ ['.']))

/-- The root marker of a path string: `"/"`, `"//"`, or none. -/
def parseRoot (cs : List Char) : List Char :=
  if cs.head? = some '/' then
    if (cs.drop 1).head? = some '/' then
      if (cs.drop 2).head? = some '/' then ['/'] else ['/', '/']
    else ['/']
  else []

/-- A parsed `PurePosixPath`: root marker (possibly empty) and segments. -/
structure PurePath : Type where
  root : List Char
  parts : List (List Char)
  deriving DecidableEq, Repr

/-- Parse one path string, as `PurePosixPath(s)` does. -/
def parsePath (cs : List Char) : PurePath :=
  ⟨parseRoot cs, segs cs⟩

/-- The string `p.as_posix()` (equal to `str(p)` on POSIX). -/
def asPosix (p : PurePath) : List Char :=
  if p.root = [] then
    if p.parts = [] then ['.'] else List.intercalate ['/'] p.parts
  else p.root ++ List.intercalate ['/'] p.parts

/-- The path `p.parent`: drop the last segment (the path itself when it
has no segments). -/
def PurePath.parent (p : PurePath) : PurePath :=
  ⟨p.root, p.parts.dropLast⟩

/-- Join already-parsed arguments as multi-argument `Path(a, b, ...)`
does: a rooted argument resets the accumulation. -/
def joinParsed (args : List PurePath) : PurePath :=
  args.foldl
    (fun acc p => if p.root = [] then ⟨acc.root, acc.parts ++ p.parts⟩ else p)
    ⟨[], []⟩

/-- Parse-and-join of raw path strings: `Path(a, b, ...)`. -/
def pathOf (args : List String) : PurePath :=
  joinParsed (args.map (fun s => parsePath s.data))

/-- String-level `Path(s).as_posix()`. -/
def pathAsPosix (s : String) : String :=
  ⟨asPosix (parsePath s.data)⟩

/-! ## Filesystem state and `SaveToFile.execute`

The filesystem is a set of existing directories plus a map from file
paths to byte contents (association list, most recent entry first).
`mkdir(parents=True, exist_ok=True)` inserts the directory and every
ancestor, succeeding whether or not any of them already exist;
`open("wb")` followed by `write` replaces the full contents. -/

structure FS : Type where
  dirs : List PurePath
  files : List (PurePath × List Nat)
  deriving Repr

/-- Contents of the file at `p`, when one exists. -/
def FS.lookupFile (fs : FS) (p : PurePath) : Option (List Nat) :=
  (fs.files.find? (fun e => e.1 = p)).map (·.2)

/-- Every ancestor of `p`, outermost first, `p` itself included. -/
def ancestorsOf (p : PurePath) : List PurePath :=
  (List.range (p.parts.length + 1)).map (fun i => ⟨p.root, p.parts.take i⟩)

/-- The effect of `p.mkdir(parents=True, exist_ok=True)`. -/
def mkdirParents (fs : FS) (p : PurePath) : FS :=
  ⟨ancestorsOf p ++ fs.dirs, fs.files⟩

/-- The effect of `open("wb")` + `write`: overwrite the file at `p`. -/
def writeFile (fs : FS) (p : PurePath) (bs : List Nat) : FS :=
  ⟨fs.dirs, (p, bs) :: fs.files.filter (fun e => e.1 ≠ p)⟩

/-- Embeds `SaveToFile.execute(d, file_path)` from `adapter/storage/__init__.py`:
convert `d` with `ConvertToBytes` (an exception there propagates and the
filesystem is untouched), create the destination's parent directory with
`parents=True, exist_ok=True`, then write all converted bytes. -/
def «SaveToFile.execute» (d : PyVal) (file_path : PurePath) (fs : FS) :
    Except PyExc FS :=
  match «ConvertToBytes.execute» d with
  | .error e => .error e
  | .ok bs => .ok (writeFile (mkdirParents fs file_path.parent) file_path bs)

/-! ## `UnityCatalogVolumeStorageService`

From `adapter/storage/__init__.py` (the second, surviving definition of
the class).  `__init__` stores the four components, re-wraps `file_path`
as `Path(file_path)`, and raises
`Exception("file_path should be a file, not a directory")` when
`self.file_path.as_posix().endswith("/")`.  `_absolute_path` is
`Path("/Volumes", catalog_name, schema_name, volume_name, file_path)`
and `save` runs `SaveToFile` at that path. -/

structure UCService : Type where
  catalog_name : String
  schema_name : String
  volume_name : String
  file_path : PurePath
  deriving Repr

/-- The tag `UnityCatalogVolumeStorageService.storage_type`. -/
def ucStorageType : String := "unity-catalog-volume"

/-- The tag `StorageService.storage_type`. -/
def fsStorageType : String := "linux-path"

/-- Embeds `UnityCatalogVolumeStorageService.__init__`. -/
def ucInit (catalog_name schema_name volume_name : String)
    (file_path : String) : Except PyExc UCService :=
  if (asPosix (parsePath file_path.data)).getLast? = some '/' then
    .error (.configErr "file_path should be a file, not a directory")
  else
    .ok ⟨catalog_name, schema_name, volume_name, parsePath file_path.data⟩

/-- Embeds `UnityCatalogVolumeStorageService._absolute_path`. -/
def ucAbsolutePath (svc : UCService) : PurePath :=
  joinParsed
    [parsePath "/Volumes".data, parsePath svc.catalog_name.data,
     parsePath svc.schema_name.data, parsePath svc.volume_name.data,
     svc.file_path]

/-- Embeds `UnityCatalogVolumeStorageService.save`. -/
def ucSave (svc : UCService) (d : PyVal) (fs : FS) : Except PyExc FS :=
  «SaveToFile.execute» d (ucAbsolutePath svc) fs

/-- Modelled from the spec's words, for comparison with
`ucAbsolutePath` (C9): the "concatenation of a fixed root (`/Volumes/`)
with four path segments", in order, read as a path string (joined with
`/` separators and normalised the way `Path(...)` renders it). -/
def specConcatPath (catalog_name schema_name volume_name file_path : String) :
    String :=
  pathAsPosix ("/Volumes/" ++ catalog_name ++ "/" ++ schema_name ++ "/" ++
    volume_name ++ "/" ++ file_path)

/-! ## `ClassImportPath` and dynamic class resolution

From `composition/context.py`.  `from_string` splits at the last `.`
(`str.rfind`), defaulting the module name to `"."` when no dot exists.
`import_class` runs `importlib.import_module(module_name)` and then
`getattr(module, class_name)`.  The import machinery is modelled
against a module table: each importable module name maps either to its
exported top-level names or to the exception its top-level code raises.
`importlib.import_module` refuses a name starting with `.` when no
`package` argument is given (Python raises
`TypeError: the package argument is required ...`) before consulting
any module. -/

structure ClassImportPath : Type where
  module_name : String
  class_name : String
  deriving DecidableEq, Repr

/-- Index of the last `'.'` in a character list (`str.rfind(".")`,
restricted to the found case; `none` plays the role of `-1`). -/
def rfindDot : List Char → Option Nat
  | [] => none
  | c :: cs =>
      match rfindDot cs with
      | some i => some (i + 1)
      | none => if c = '.' then some 0 else none

/-- Embeds `ClassImportPath.from_string`. -/
def fromString (s : String) : ClassImportPath :=
  match rfindDot s.data with
  | none => ⟨".", s⟩
  | some i => ⟨⟨s.data.take i⟩, ⟨s.data.drop (i + 1)⟩⟩

/-- What importing a module yields: its exported names, or the
exception its top-level code raises. -/
inductive ModuleOutcome : Type where
  | loaded (exports : List String)
  | raisesNameErr (msg : String)
  deriving DecidableEq, Repr

/-- Failures of `ClassImportPath.import_class`. -/
inductive ImportErr : Type where
  | moduleNotFound (moduleName : String)
  | attributeMissing (moduleName className : String)
  | nameErr (msg : String)
  | relativeNeedsPackage
  deriving DecidableEq, Repr

/-- Embeds `ClassImportPath.import_class`, against a module table.  A returned
class is represented by its fully qualified name. -/
def importClass (table : List (String × ModuleOutcome))
    (p : ClassImportPath) : Except ImportErr String :=
  if p.module_name.data.head? = some '.' then
    .error .relativeNeedsPackage
  else
    match table.lookup p.module_name with
    | none => .error (.moduleNotFound p.module_name)
    | some (.raisesNameErr m) => .error (.nameErr m)
    | some (.loaded exports) =>
        if p.class_name ∈ exports then
          .ok (p.module_name ++ "." ++ p.class_name)
        else .error (.attributeMissing p.module_name p.class_name)

/-- The modules of this repository (package layout under `src/`), with
their import outcome.  `example_project` and
`example_project.adapter.interface` have no `__init__.py` and load as
namespace packages.  `example_project.adapter.parser` raises
`NameError` at import time: the class body of `AsIsParser` evaluates
the parameter annotation `Any` in `def parse(self, s: Any)`, and the
module never imports `Any`. -/
def repoModules : List (String × ModuleOutcome) :=
  [("example_project", .loaded []),
   ("example_project.main", .loaded ["main", "Context",
      "ingest_frames_from_api_into_landing_layer"]),
   ("example_project.model", .loaded ["Frame", "dataclass"]),
   ("example_project.composition", .loaded []),
   ("example_project.composition.context",
      .loaded ["ClassImportPath", "Context", "NamedTuple", "importlib"]),
   ("example_project.composition.frames",
      .loaded ["is_unity_catalog_storage", "import_frame_service_classes",
        "ingest_frames_from_api_into_landing_layer", "Context",
        "DownloadAndStore", "Path"]),
   ("example_project.adapter", .loaded []),
   ("example_project.adapter.protocols",
      .loaded ["ApiClass", "Parser", "Storage", "UnityCatalogStorage",
        "Path", "Any", "Protocol", "runtime_checkable"]),
   ("example_project.adapter.parser",
      .raisesNameErr "name Any is not defined"),
   ("example_project.adapter.interface", .loaded []),
   ("example_project.adapter.interface.frame_service",
      .loaded ["FrameService", "ApiClass", "Any"]),
   ("example_project.adapter.interface.graphql_service",
      .loaded ["GraphQLService", "ApiClass", "Any"]),
   ("example_project.adapter.storage",
      .loaded ["Command", "ConvertToBytes", "SaveToFile",
        "UnityCatalogVolumeStorageService", "StorageService",
        "Storage", "UnityCatalogStorage", "Path", "Any", "Protocol",
        "json", "datetime", "date", "timedelta"]),
   ("example_project.application", .loaded []),
   ("example_project.application.use_case",
      .loaded ["UseCase", "DownloadAndStore", "ApiClass", "Parser",
        "Storage", "Context", "Protocol"])]

/-! ## `Context` and its factory presets (`composition/context.py`) -/

structure Context : Type where
  environment : String
  project_package_name : String
  frames_class : ClassImportPath
  frames_parser_class : ClassImportPath
  storage_class : ClassImportPath
  deriving DecidableEq, Repr

/-- Embeds `Context.default()`. -/
def «Context.default» : Context :=
  ⟨"dev", "example_project",
   fromString "example_project.interface.graphql_service.GraphQLService",
   fromString "example_project.parser.AsIsParser",
   fromString "example_project.storage.StorageService"⟩

/-- Embeds `Context.notebook_default()`. -/
def «Context.notebook_default» : Context :=
  ⟨"dev", "example_project",
   fromString "example_project.interface.graphql_service.GraphQLService",
   fromString "example_project.parser.AsIsParser",
   fromString "example_project.storage.StorageService"⟩

/-- Embeds `import_frame_service_classes` from `composition/frames.py`:
resolve the three configured roles in order; the first import failure
propagates. -/
def importFrameServiceClasses (table : List (String × ModuleOutcome))
    (ctx : Context) : Except ImportErr (String × String × String) := do
  let frameServiceCls ← importClass table ctx.frames_class
  let parserCls ← importClass table ctx.frames_parser_class
  let storageCls ← importClass table ctx.storage_class
  pure (frameServiceCls, parserCls, storageCls)

/-! ## `DownloadAndStore` (`application/use_case.py`)

The three injected components are abstracted by their observable
behaviour: `download` produces a value or raises, `parse` and `save`
map their input to a value or raise.  `execute` is the literal body

    data = self.download_client.download()
    parsed_data = self.parser.parse(data)
    self.storage.save(parsed_data)

with Python exception semantics: a raise in any stage aborts the rest. -/

structure DownloadAndStore (ε α β : Type) : Type where
  download : Except ε α
  parse : α → Except ε β
  save : β → Except ε Unit

/-- Embeds `DownloadAndStore.execute`. -/
def DownloadAndStore.execute {ε α β : Type} (u : DownloadAndStore ε α β) :
    Except ε Unit :=
  match u.download with
  | .error e => .error e
  | .ok data =>
      match u.parse data with
      | .error e => .error e
      | .ok parsed_data => u.save parsed_data

/-! ## Lemmas about the path model -/

theorem splitSlash_ne_nil : ∀ cs : List Char, splitSlash cs ≠ [] := by
  intro cs
  cases cs with
  | nil => simp [splitSlash]
  | cons c cs =>
      by_cases h : c = '/'
      · simp [splitSlash, h]
      · cases hs : splitSlash cs <;> simp [splitSlash, h, hs]

theorem splitSlash_append (a b : List Char) :
    splitSlash (a ++ '/' :: b) = splitSlash a ++ splitSlash b := by
  induction a with
  | nil => simp [splitSlash]
  | cons c a ih =>
      by_cases h : c = '/'
      · simp [splitSlash, h, ih]
      · obtain ⟨g, gs, hgs⟩ := List.exists_cons_of_ne_nil (splitSlash_ne_nil a)
        simp [splitSlash, h, ih, hgs]

theorem segs_append (a b : List Char) :
    segs (a ++ '/' :: b) = segs a ++ segs b := by
  simp [segs, splitSlash_append, List.filter_append]

theorem mem_splitSlash_no_slash :
    ∀ (cs : List Char) (g : List Char), g ∈ splitSlash cs → '/' ∉ g := by
  intro cs
  induction cs with
  | nil =>
      intro g hg
      simp [splitSlash] at hg
      simp [hg]
  | cons c cs ih =>
      intro g hg
      by_cases h : c = '/'
      · simp only [splitSlash, if_pos h] at hg
        rcases List.mem_cons.mp hg with hg | hg
        · simp [hg]
        · exact ih g hg
      · obtain ⟨g0, gs, hgs⟩ := List.exists_cons_of_ne_nil (splitSlash_ne_nil cs)
        simp only [splitSlash, if_neg h, hgs] at hg
        rcases List.mem_cons.mp hg with hg | hg
        · subst hg
          intro hmem
          rcases List.mem_cons.mp hmem with h1 | h1
          · exact h h1.symm
          · exact ih g0 (hgs ▸ List.mem_cons_self g0 gs) h1
        · exact ih g (hgs ▸ List.mem_cons_of_mem g0 hg)

theorem mem_segs_props (cs : List Char) (g : List Char) (h : g ∈ segs cs) :
    g ≠ [] ∧ '/' ∉ g := by
  have h2 := List.mem_filter.mp h
  refine ⟨?_, mem_splitSlash_no_slash cs g h2.1⟩
  have := of_decide_eq_true h2.2
  exact this.1

theorem parseRoot_of_head_ne_slash (cs : List Char)
    (h : cs.head? ≠ some '/') : parseRoot cs = [] := by
  simp [parseRoot, h]

theorem parsePath_of_head_ne_slash (cs : List Char)
    (h : cs.head? ≠ some '/') : parsePath cs = ⟨[], segs cs⟩ := by
  simp [parsePath, parseRoot_of_head_ne_slash cs h]

theorem intercalate_slash_single (g : List Char) :
    List.intercalate ['/'] [g] = g := by
  simp [List.intercalate]

theorem intercalate_slash_cons₂ (g g2 : List Char) (rest : List (List Char)) :
    List.intercalate ['/'] (g :: g2 :: rest) =
      g ++ '/' :: List.intercalate ['/'] (g2 :: rest) := by
  simp [List.intercalate]

theorem lastChar_intercalate :
    ∀ ps : List (List Char), ps ≠ [] → (∀ g ∈ ps, g ≠ [] ∧ '/' ∉ g) →
      ∃ ch, (List.intercalate ['/'] ps).getLast? = some ch ∧ ch ≠ '/' := by
  intro ps
  induction ps with
  | nil => intro h; exact absurd rfl h
  | cons g rest ih =>
      intro _ hall
      cases rest with
      | nil =>
          rw [intercalate_slash_single]
          have hg := hall g (List.mem_cons_self g [])
          obtain ⟨ch, hch⟩ :=
            Option.isSome_iff_exists.mp (List.getLast?_isSome.mpr hg.1)
          exact ⟨ch, hch,
            fun he => hg.2 (he ▸ List.mem_of_getLast?_eq_some hch)⟩
      | cons g2 rest2 =>
          rw [intercalate_slash_cons₂]
          obtain ⟨ch, hch, hne⟩ :=
            ih (by simp) (fun g' hg' => hall g' (List.mem_cons_of_mem g hg'))
          refine ⟨ch, ?_, hne⟩
          have hsplit : g ++ '/' :: List.intercalate ['/'] (g2 :: rest2)
              = g ++ (['/'] ++ List.intercalate ['/'] (g2 :: rest2)) := by simp
          rw [hsplit, List.getLast?_append, List.getLast?_append, hch]
          rfl

theorem relative_asPosix_getLast_ne_slash (cs : List Char)
    (h : cs.head? ≠ some '/') :
    (asPosix (parsePath cs)).getLast? ≠ some '/' := by
  rw [parsePath_of_head_ne_slash cs h]
  by_cases hp : segs cs = []
  · simp [asPosix, hp]
  · obtain ⟨ch, hch, hne⟩ :=
      lastChar_intercalate (segs cs) hp (fun g hg => mem_segs_props cs g hg)
    simp [asPosix, hp, hch, hne]

/-! ## Claims about `ConvertToBytes` -/

/-- C2.  Byte Conversion maps `True` to the UTF-8 bytes `b"True"` and
`False` to `b"False"`, and these are distinct from the numeric
encodings `b"1"`/`b"0"`: the boolean kind takes textual precedence over
numeric-integer coercion in the observable output of
`ConvertToBytes.execute` (in the source the input is in fact caught by
the `int` branch, `bool` being a subclass of `int`, but `str(True)` is
`"True"`, so the observable output is the textual form). -/
theorem claim_C2_boolean_precedence :
    «ConvertToBytes.execute» (PyVal.VBool true) = .ok (utf8 "True") ∧
    «ConvertToBytes.execute» (PyVal.VBool false) = .ok (utf8 "False") ∧
    utf8 "True" ≠ utf8 "1" ∧
    utf8 "False" ≠ utf8 "0" :=
  ⟨rfl, rfl, by decide, by decide⟩

/-- C3.  Contrary to the claim that every `timedelta` converts to its
total elapsed seconds as a decimal string, the `timedelta` branch of
`ConvertToBytes.execute` is `d.total_seconds().encode("utf-8")`, and
`total_seconds()` returns a `float`, which has no `encode` method: the
branch raises `AttributeError` on every `timedelta` value, so byte
conversion is not total on the documented kind set. -/
theorem claim_C3_timedelta_branch_raises :
    ∀ (days : Int) (secs us : Nat),
      «ConvertToBytes.execute» (PyVal.VTimedelta days secs us) =
        .error (.attrErr "float object has no attribute encode") :=
  fun _ _ _ => rfl

/-- C6.  `ConvertToBytes.execute` produces the `Unsupported type`
error exactly for inputs whose kind lies outside the closed documented
set (modelled by `VOther`), and the error names the offending type; a
value of any kind inside the set never produces that error (the
`timedelta` kind raises, but with `AttributeError`, not with the
unsupported-type error, and a non-serialisable `dict`/`list` raises
`TypeError` from `json.dumps`, again not the unsupported-type error). -/
theorem claim_C6_unsupported_iff_outside_closed_set :
    (∀ v : PyVal,
      isUnsupportedErr («ConvertToBytes.execute» v) = !(inClosedKindSet v)) ∧
    (∀ t : String,
      «ConvertToBytes.execute» (PyVal.VOther t) = .error (.unsupported t)) := by
  constructor
  · intro v
    cases v with
    | VDict es =>
        cases hd : dumps (PyVal.VDict es) <;>
          simp [«ConvertToBytes.execute», hd, isUnsupportedErr, inClosedKindSet]
    | VList xs =>
        cases hd : dumps (PyVal.VList xs) <;>
          simp [«ConvertToBytes.execute», hd, isUnsupportedErr, inClosedKindSet]
    | _ => rfl
  · intro t
    rfl

/-- C10.  Byte conversion is idempotent: whenever
`ConvertToBytes.execute` succeeds, its output is a `bytes` value, and
feeding that output back through the conversion returns it unchanged
(the `bytes` branch is the identity). -/
theorem claim_C10_idempotent :
    ∀ (v : PyVal) (b : List Nat),
      «ConvertToBytes.execute» v = .ok b →
      «ConvertToBytes.execute» (PyVal.VBytes b) = .ok b :=
  fun _ _ _ => rfl

/-- Witness for C10 at the concrete input `"text"`. -/
theorem claim_C10_witness :
    «ConvertToBytes.execute» (PyVal.VBytes (utf8 "text")) = .ok (utf8 "text") :=
  claim_C10_idempotent (PyVal.VStr "text") (utf8 "text") rfl

/-! ## Claim about `DownloadAndStore` -/

/-- C5.  `DownloadAndStore.execute()` is exactly the sequential
composition `storage.save(parser.parse(download_client.download()))`
for every injected source, parser and storage: it equals the monadic
chain of the three stages, an exception in any stage propagates
unchanged with the later stages skipped, and when all stages succeed
the result is that of `save` applied to `parse` of `download`'s
value. -/
theorem claim_C5_execute_is_composition {ε α β : Type}
    (u : DownloadAndStore ε α β) :
    (u.execute =
      Except.bind u.download (fun data => Except.bind (u.parse data) u.save)) ∧
    (∀ e, u.download = .error e → u.execute = .error e) ∧
    (∀ data e, u.download = .ok data → u.parse data = .error e →
      u.execute = .error e) ∧
    (∀ data parsed, u.download = .ok data → u.parse data = .ok parsed →
      u.execute = u.save parsed) := by
  refine ⟨?_, ?_, ?_, ?_⟩
  · cases h : u.download with
    | error e => simp [DownloadAndStore.execute, h, Except.bind]
    | ok data =>
        cases h2 : u.parse data <;>
          simp [DownloadAndStore.execute, h, h2, Except.bind]
  · intro e h
    simp [DownloadAndStore.execute, h]
  · intro data e h1 h2
    simp [DownloadAndStore.execute, h1, h2]
  · intro data parsed h1 h2
    simp [DownloadAndStore.execute, h1, h2]

/-- Witness for C5: a concrete successful pipeline and a concrete
pipeline whose source raises. -/
theorem claim_C5_witness :
    DownloadAndStore.execute
      (⟨Except.ok 5, fun n => Except.ok (n + 1), fun _ => Except.ok ()⟩ :
        DownloadAndStore PyExc Nat Nat) = Except.ok () ∧
    DownloadAndStore.execute
      (⟨Except.error (PyExc.typeErr "boom"), fun n => Except.ok (n + 1),
        fun _ => Except.ok ()⟩ :
        DownloadAndStore PyExc Nat Nat) = Except.error (PyExc.typeErr "boom") :=
  ⟨(claim_C5_execute_is_composition _).2.2.2 5 6 rfl rfl,
   (claim_C5_execute_is_composition _).2.1 (PyExc.typeErr "boom") rfl⟩

/-! ## Claim about the configuration presets -/

/-- C4.  Against the repository's actual module layout, each of the
three dotted import paths configured by both built-in presets
(`Context.default` and `Context.notebook_default`) names a module that
does not exist (`example_project.interface.graphql_service`,
`example_project.parser` and `example_project.storage`; the
implementations live under `example_project.adapter.*`), so resolving
any of the three roles fails with `ModuleNotFoundError` and
`import_frame_service_classes` fails on both presets before any
instantiation; moreover the module that actually holds `AsIsParser`
(`example_project.adapter.parser`) itself raises `NameError` on import,
because it uses the annotation `Any` without importing it. -/
theorem claim_C4_presets_fail_to_import :
    importFrameServiceClasses repoModules «Context.default» =
      .error (.moduleNotFound "example_project.interface.graphql_service") ∧
    importFrameServiceClasses repoModules «Context.notebook_default» =
      .error (.moduleNotFound "example_project.interface.graphql_service") ∧
    importClass repoModules «Context.default».frames_class =
      .error (.moduleNotFound "example_project.interface.graphql_service") ∧
    importClass repoModules «Context.default».frames_parser_class =
      .error (.moduleNotFound "example_project.parser") ∧
    importClass repoModules «Context.default».storage_class =
      .error (.moduleNotFound "example_project.storage") ∧
    importClass repoModules «Context.notebook_default».frames_class =
      .error (.moduleNotFound "example_project.interface.graphql_service") ∧
    importClass repoModules «Context.notebook_default».frames_parser_class =
      .error (.moduleNotFound "example_project.parser") ∧
    importClass repoModules «Context.notebook_default».storage_class =
      .error (.moduleNotFound "example_project.storage") ∧
    importClass repoModules ⟨"example_project.adapter.parser", "AsIsParser"⟩ =
      .error (.nameErr "name Any is not defined") :=
  ⟨rfl, rfl, rfl, rfl, rfl, rfl, rfl, rfl, rfl⟩

/-! ## Claim about `UnityCatalogVolumeStorageService.__init__` -/

/-- C1.  Contrary to the claim that a relative file path ending in `/`
always raises the configuration error, `__init__` first rewraps its
argument as `Path(file_path)`, and `pathlib` normalisation strips the
trailing separator, so `Path("landing_layer/").as_posix()` is
`"landing_layer"` and the guard `endswith("/")` never fires for a
relative path: construction succeeds.  (The guard can only fire for the
absolute root paths `/` and `//`.)  First two conjuncts evaluate the
constructor at the concrete failing input; the last shows no relative
path whatsoever is rejected. -/
theorem claim_C1_trailing_slash_relative_path_accepted :
    ("landing_layer/".data.getLast? = some '/') ∧
    (ucInit "dev_catalog_base" "default" "sales-reporting-gen2-temp"
        "landing_layer/" =
      Except.ok ⟨"dev_catalog_base", "default", "sales-reporting-gen2-temp",
        parsePath "landing_layer/".data⟩) ∧
    (∀ c s v fp : String, fp.data.head? ≠ some '/' →
      ∃ svc, ucInit c s v fp = Except.ok svc) := by
  refine ⟨by decide, rfl, ?_⟩
  intro c s v fp hrel
  refine ⟨⟨c, s, v, parsePath fp.data⟩, ?_⟩
  unfold ucInit
  rw [if_neg]
  exact relative_asPosix_getLast_ne_slash fp.data hrel

/-- Witness for C1's universal conjunct at a concrete relative path. -/
theorem claim_C1_witness :
    ∃ svc, ucInit "c" "s" "v" "landing_layer/" = Except.ok svc :=
  claim_C1_trailing_slash_relative_path_accepted.2.2
    "c" "s" "v" "landing_layer/" (by decide)

/-! ## Claim about `ClassImportPath` -/

theorem rfindDot_none_of_no_dot :
    ∀ cs : List Char, '.' ∉ cs → rfindDot cs = none := by
  intro cs
  induction cs with
  | nil => intro _; rfl
  | cons c cs ih =>
      intro h
      have hc : c ≠ '.' := fun he => h (he ▸ List.mem_cons_self c cs)
      have hcs : '.' ∉ cs := fun hm => h (List.mem_cons_of_mem c hm)
      simp [rfindDot, ih hcs, hc]

theorem rfindDot_last_dot (pre post : List Char) (h : '.' ∉ post) :
    rfindDot (pre ++ '.' :: post) = some pre.length := by
  induction pre with
  | nil => simp [rfindDot, rfindDot_none_of_no_dot post h]
  | cons c pre ih => simp [rfindDot, ih]

/-- C7.  `ClassImportPath.from_string` splits its input at the last
dot: when the input has no `.` it returns the root-sentinel module name
`"."` with the whole input as class name, and when the input decomposes
as `pre ++ "." ++ post` with no dot in `post` it returns module name
`pre` and class name `post`.  Resolving a sentinel reference always
fails, whatever the module table holds: `importlib.import_module(".")`
rejects a leading-dot name outright when no `package` argument is
supplied, before consulting any module, so no table can make it
succeed. -/
theorem claim_C7_split_at_last_dot (s : String) :
    ('.' ∉ s.data → fromString s = ⟨".", s⟩) ∧
    (∀ pre post : List Char, s.data = pre ++ '.' :: post → '.' ∉ post →
      fromString s = ⟨⟨pre⟩, ⟨post⟩⟩) ∧
    (∀ table, importClass table ⟨".", s⟩ =
      .error .relativeNeedsPackage) := by
  refine ⟨?_, ?_, fun table => rfl⟩
  · intro h
    simp [fromString, rfindDot_none_of_no_dot s.data h]
  · intro pre post hs hpost
    have h1 : rfindDot s.data = some pre.length := by
      rw [hs]; exact rfindDot_last_dot pre post hpost
    have hlen : (pre ++ ['.']).length = pre.length + 1 := by simp
    have hs2 : s.data = (pre ++ ['.']) ++ post := by simp [hs]
    simp only [fromString, h1]
    have e1 : List.take pre.length s.data = pre := by
      rw [hs]; exact List.take_left pre ('.' :: post)
    have e2 : List.drop (pre.length + 1) s.data = post := by
      rw [hs2]; exact List.drop_left' hlen
    rw [e1, e2]

/-- Witness for C7 at the concrete inputs `"Foo"` (no dot) and
`"a.b.C"` (split at the last dot), with the empty module table. -/
theorem claim_C7_witness :
    fromString "Foo" = ⟨".", "Foo"⟩ ∧
    fromString "a.b.C" = ⟨"a.b", "C"⟩ ∧
    importClass [] ⟨".", "Foo"⟩ = .error .relativeNeedsPackage :=
  ⟨(claim_C7_split_at_last_dot "Foo").1 (by decide),
   (claim_C7_split_at_last_dot "a.b.C").2.1 "a.b".data "C".data
     (by decide) (by decide),
   (claim_C7_split_at_last_dot "Foo").2.2 []⟩

/-! ## Claim about `SaveToFile` -/

/-- C8.  For every value the byte conversion accepts and every
destination path, `SaveToFile.execute` succeeds on any starting
filesystem (in particular both when none of the destination's ancestor
directories exist and when all of them already exist), and afterwards
the destination file contains exactly the bytes produced by
`ConvertToBytes` for the value — any previous content is overwritten —
and every ancestor directory of the destination is present. -/
theorem claim_C8_save_creates_dirs_and_overwrites
    (d : PyVal) (p : PurePath) (fs : FS) (bs : List Nat)
    (h : «ConvertToBytes.execute» d = .ok bs) :
    ∃ fs2, «SaveToFile.execute» d p fs = .ok fs2 ∧
      fs2.lookupFile p = some bs ∧
      ∀ q ∈ ancestorsOf p.parent, q ∈ fs2.dirs := by
  refine ⟨writeFile (mkdirParents fs p.parent) p bs, ?_, ?_, ?_⟩
  · simp [«SaveToFile.execute», h]
  · simp [FS.lookupFile, writeFile, List.find?]
  · intro q hq
    simp only [writeFile, mkdirParents, List.mem_append]
    exact Or.inl hq

/-- Witness for C8: saving the string `"x"` to `/a/b/c/d/file.json` on
the empty filesystem. -/
theorem claim_C8_witness :
    ∃ fs2, «SaveToFile.execute» (PyVal.VStr "x")
        (parsePath "/a/b/c/d/file.json".data) ⟨[], []⟩ = .ok fs2 ∧
      fs2.lookupFile (parsePath "/a/b/c/d/file.json".data) = some (utf8 "x") ∧
      ∀ q ∈ ancestorsOf (parsePath "/a/b/c/d/file.json".data).parent,
        q ∈ fs2.dirs :=
  claim_C8_save_creates_dirs_and_overwrites (PyVal.VStr "x")
    (parsePath "/a/b/c/d/file.json".data) ⟨[], []⟩ (utf8 "x") rfl

/-! ## Claim about the Unity Catalog absolute path -/

/-- C9, counterexample.  The claim states that for every successfully
constructed service the absolute destination path equals the
concatenation of `/Volumes` with the four components in order.  With
`file_path = "/etc/passwd"` (absolute) construction succeeds — the
trailing-separator guard does not fire — yet `Path("/Volumes",
catalog, schema, volume, file_path)` resets at the absolute component
and yields `/etc/passwd`, not the concatenation (in either its
normalised or raw reading). -/
theorem claim_C9_counterexample :
    ucInit "c" "s" "v" "/etc/passwd" =
      Except.ok ⟨"c", "s", "v", parsePath "/etc/passwd".data⟩ ∧
    (⟨asPosix (ucAbsolutePath
        ⟨"c", "s", "v", parsePath "/etc/passwd".data⟩)⟩ : String) =
      "/etc/passwd" ∧
    specConcatPath "c" "s" "v" "/etc/passwd" = "/Volumes/c/s/v/etc/passwd" ∧
    ("/Volumes/" ++ "c" ++ "/" ++ "s" ++ "/" ++ "v" ++ "/" ++ "/etc/passwd"
      : String) = "/Volumes/c/s/v//etc/passwd" ∧
    ("/etc/passwd" : String) ≠ "/Volumes/c/s/v/etc/passwd" ∧
    ("/etc/passwd" : String) ≠ "/Volumes/c/s/v//etc/passwd" :=
  ⟨rfl, by decide, by decide, by decide, by decide, by decide⟩

theorem segs_cons_slash (cs : List Char) : segs ('/' :: cs) = segs cs := by
  simp [segs, splitSlash]

/-- C9, amended.  When none of the four constructor components is an
absolute path (none starts with `/`), the absolute destination path of
a successfully constructed Three-Level-Namespace Storage equals the
concatenation of the mount root `/Volumes` with catalog name, schema
name, volume name and relative file path, in that order (joined with
`/` and read as a path). -/
theorem claim_C9_amended (c s v fp : String)
    (hc : c.data.head? ≠ some '/') (hs : s.data.head? ≠ some '/')
    (hv : v.data.head? ≠ some '/') (hf : fp.data.head? ≠ some '/')
    (svc : UCService) (h : ucInit c s v fp = .ok svc) :
    (⟨asPosix (ucAbsolutePath svc)⟩ : String) = specConcatPath c s v fp := by
  unfold ucInit at h
  rw [if_neg (relative_asPosix_getLast_ne_slash fp.data hf)] at h
  injection h with h
  subst h
  have hc2 := parsePath_of_head_ne_slash c.data hc
  have hs2 := parsePath_of_head_ne_slash s.data hs
  have hv2 := parsePath_of_head_ne_slash v.data hv
  have hf2 := parsePath_of_head_ne_slash fp.data hf
  have hV : parsePath "/Volumes".data = ⟨['/'], ["Volumes".data]⟩ := by decide
  have hL : ("/Volumes/" ++ c ++ "/" ++ s ++ "/" ++ v ++ "/" ++ fp).data
      = '/' :: ("Volumes".data ++ '/' :: (c.data ++ '/' :: (s.data ++
          '/' :: (v.data ++ '/' :: fp.data)))) := by
    simp [String.data_append]
  have key : ucAbsolutePath ⟨c, s, v, parsePath fp.data⟩ =
      parsePath ("/Volumes/" ++ c ++ "/" ++ s ++ "/" ++ v ++ "/" ++ fp).data := by
    rw [show parsePath fp.data = ⟨[], segs fp.data⟩ from hf2]
    unfold ucAbsolutePath joinParsed
    rw [hV, hc2, hs2, hv2]
    simp only [List.foldl_cons, List.foldl_nil]
    rw [hL]
    unfold parsePath
    rw [segs_cons_slash, segs_append, segs_append, segs_append, segs_append]
    have hroot : parseRoot ('/' :: ("Volumes".data ++ '/' :: (c.data ++
        '/' :: (s.data ++ '/' :: (v.data ++ '/' :: fp.data))))) = ['/'] := by
      simp [parseRoot]
    rw [hroot]
    simp [segs, splitSlash, List.append_assoc]
  rw [key]
  rfl

/-- Witness for C9's amended statement at the concrete components the
composition root uses. -/
theorem claim_C9_witness :
    (⟨asPosix (ucAbsolutePath ⟨"dev_catalog_base", "default",
        "sales-reporting-gen2-temp",
        parsePath "landing_layer_test/2025_file.json".data⟩)⟩ : String) =
      specConcatPath "dev_catalog_base" "default" "sales-reporting-gen2-temp"
        "landing_layer_test/2025_file.json" :=
  claim_C9_amended "dev_catalog_base" "default" "sales-reporting-gen2-temp"
    "landing_layer_test/2025_file.json" (by decide) (by decide) (by decide)
    (by decide) _ rfl

end ExampleProject
